import Mathlib

/-!
Verification of the process lifecycle supervisor in start_app.py
(Collaboration-Service-Platform).

The Python source is shallowly embedded: pure string manipulation is
translated character for character, and the stateful parts (spawning,
polling, signal handling, the supervision loop) are modelled as pure
functions over explicit state, with the external world (file contents,
poll results, executable availability) passed in as parameters.
-/

/-! Section: Environment overlays (dict semantics: later assignment wins) -/

/-- An environment mapping, as produced by os.environ.copy() plus updates. -/
def EnvMap : Type := String → Option String

/-- The empty environment, used as a concrete ambient environment in tests. -/
def emptyEnv : EnvMap := fun _ => none

/-- Python dict assignment: env_vars[k] = v. -/
def envInsert (env : EnvMap) (k v : String) : EnvMap :=
  fun q => if q = k then some v else env q

/-! Section: Python string primitives used by load_env_file -/

/-- Drop characters satisfying p from both ends of a character list
(the semantics of the Python str.strip family). -/
def pyStripList (p : Char → Bool) (l : List Char) : List Char :=
  ((l.dropWhile p).reverse.dropWhile p).reverse

/-- Python s.strip(chars) on strings. -/
def pyStrip (p : Char → Bool) (s : String) : String :=
  String.mk (pyStripList p s.data)

/-- Python s.strip() with no arguments: strip whitespace
(whitespace is modelled by Char.isWhitespace). -/
def pyStripWs (s : String) : String :=
  pyStrip Char.isWhitespace s

/-- The single-quote character (code 39). -/
def squoteCh : Char := Char.ofNat 39

/-- The double-quote character (code 34). -/
def dquoteCh : Char := Char.ofNat 34

/-- The separator character of a KEY=VALUE line. -/
def eqCh : Char := Char.ofNat 61

/-- The comment marker of the configuration file. -/
def hashCh : Char := Char.ofNat 35

/-- Python value.strip(dquote).strip(squote), in the order of the source:
double quotes are stripped first, then single quotes. -/
def stripQuotes (s : String) : String :=
  pyStrip (fun c => c = squoteCh) (pyStrip (fun c => c = dquoteCh) s)

/-- Python line.startswith(hash) on a character list. -/
def isComment : List Char → Bool
  | [] => false
  | c :: _ => c = hashCh

/-- Split a character list at the first occurrence of c
(the semantics of Python line.split(sep, 1) when sep occurs);
returns none when c does not occur, which is exactly the case the
source skips with its membership guard. -/
def splitFirstAux (c : Char) : List Char → Option (List Char × List Char)
  | [] => none
  | x :: xs =>
    if x = c then some ([], xs)
    else
      match splitFirstAux c xs with
      | some kv => some (x :: kv.1, kv.2)
      | none => none

/-! Section: load_env_file (start_app.py lines 136-154) -/

/-- The assignment produced by one line of the configuration file, or none
when the line is skipped. Faithful to the source guard
(nonempty after strip, not a comment, contains the separator) followed by
split on the first separator, strip of surrounding quotes from the value
and strip of whitespace from the key. -/
def lineAssign (raw : String) : Option (String × String) :=
  if (pyStripWs raw).data.isEmpty then none
  else if isComment (pyStripWs raw).data then none
  else
    match splitFirstAux eqCh (pyStripWs raw).data with
    | some kv => some (pyStripWs (String.mk kv.1), stripQuotes (String.mk kv.2))
    | none => none

/-- Process one line of the configuration file against the running
environment (the body of the for loop of load_env_file). -/
def processLine (env : EnvMap) (raw : String) : EnvMap :=
  match lineAssign raw with
  | some kv => envInsert env kv.1 kv.2
  | none => env

/-- Process the lines of the configuration file in order
(the for loop of load_env_file). -/
def parseLines (env : EnvMap) : List String → EnvMap
  | [] => env
  | l :: ls => parseLines (processLine env l) ls

/-- The outcome of attempting to read the configuration file:
the file is absent, the open call itself fails, or some prefix of lines is
yielded with a flag recording whether an exception interrupted the read
after that prefix. -/
inductive ReadResult : Type
  | noFile : ReadResult
  | failAtOpen : ReadResult
  | readLines : List String → Bool → ReadResult
deriving DecidableEq

/-- load_env_file: start from a copy of the ambient environment, insert the
entries of every line actually yielded by the read, and on any failure keep
whatever was inserted so far, surfacing only a warning (the Bool of the
result records whether the warning branch ran). -/
def load_env_file (ambient : EnvMap) (r : ReadResult) : EnvMap × Bool :=
  match r with
  | ReadResult.noFile => (ambient, false)
  | ReadResult.failAtOpen => (ambient, true)
  | ReadResult.readLines ls failed => (parseLines ambient ls, failed)

/-- Modelled from the spec side for comparison: the value the last
processed line assigns to key k, if any (spec: later lines override
earlier ones for duplicate keys). -/
def specLastAssignment (k : String) : List String → Option String
  | [] => none
  | l :: ls =>
    match specLastAssignment k ls with
    | some v => some v
    | none =>
      match lineAssign l with
      | some kv => if kv.1 = k then some kv.2 else none
      | none => none

/-! Section: Launch model (start_backend_service, start_frontend) -/

/-- Where the combined stdout/stderr of a spawned child is sent. -/
inductive OutDest : Type
  | logFile : String → OutDest
  | pipe : OutDest
deriving DecidableEq

/-- The parameters of a Popen call: argv, output destination, and the
environment passed (none means the child inherits the ambient
environment because no env argument was given). -/
structure SpawnCall : Type where
  argv : List String
  dest : OutDest
  envPassed : Option EnvMap

/-- The log file name for a service, from main:
log_dir joined with the service name followed by "-service.log". -/
def backendLogName (serviceName : String) : String :=
  serviceName ++ "-service.log"

/-- The external facts that decide one launch: whether Popen raised, and
the poll result at the post-spawn grace probe (none means still running). -/
structure LaunchWorld : Type where
  spawnRaises : Bool
  pollAtGrace : Option Int

/-- The shared tail of both launch functions: sleep, then poll; return the
handle when poll gives none (still running), none when the process has
already exited, and none as well when Popen raised (the except branch). -/
def graceProbe (w : LaunchWorld) (pid : Nat) : Option Nat :=
  if w.spawnRaises then none
  else
    match w.pollAtGrace with
    | none => some pid
    | some _ => none

/-- The Popen parameters of start_backend_service: for the auth service
with its dedicated script present, the script via bash; otherwise node
with ts-node-dev on the service index file. Both branches send combined
output to the per-service log file and pass the loaded overlay. -/
def backendSpawnCall (serviceName : String) (authScriptExists : Bool)
    (overlay : EnvMap) : SpawnCall :=
  if serviceName.toLower = "auth" && authScriptExists then
    { argv := ["bash", "start-auth-service.sh"]
      dest := OutDest.logFile (backendLogName serviceName)
      envPassed := some overlay }
  else
    { argv := ["node", "-r", "dotenv/config", "node_modules/.bin/ts-node-dev",
               "--respawn", "services/" ++ serviceName.toLower ++ "/src/index.ts"]
      dest := OutDest.logFile (backendLogName serviceName)
      envPassed := some overlay }

/-- start_backend_service (lines 156-209): the attempted spawn call and the
grace-probe result. -/
def start_backend_service (serviceName : String) (authScriptExists : Bool)
    (overlay : EnvMap) (w : LaunchWorld) (pid : Nat) : SpawnCall × Option Nat :=
  (backendSpawnCall serviceName authScriptExists overlay, graceProbe w pid)

/-- The Popen parameters of start_frontend (lines 216-221): npm run dev,
stdout to an in-process pipe with stderr folded in, and no env argument. -/
def frontendSpawnCall : SpawnCall :=
  { argv := ["npm", "run", "dev"], dest := OutDest.pipe, envPassed := none }

/-- start_frontend (lines 211-233): the attempted spawn call and the
grace-probe result (sleep 2 then poll, same shape as the backend probe). -/
def start_frontend (w : LaunchWorld) (pid : Nat) : SpawnCall × Option Nat :=
  (frontendSpawnCall, graceProbe w pid)

/-- main, lines 345-346 and 351-352: append the handle to the tracked list
exactly when the launch returned one. -/
def trackIfStarted (tracked : List Nat) (r : Option Nat) : List Nat :=
  match r with
  | some p => tracked ++ [p]
  | none => tracked

/-- The per-launch environment of a backend service: load_env_file is
called inside start_backend_service, on the file contents read at that
launch (line 161). -/
def backendLaunchEnv (ambient : EnvMap) (r : ReadResult) : EnvMap :=
  (load_env_file ambient r).1

/-- One backend launch as main performs it: the read of the configuration
file at that moment plus the external launch facts. -/
structure ServiceLaunch : Type where
  readAtLaunch : ReadResult
  world : LaunchWorld

/-- The environment a given launch passes to its child. -/
def launchEnvOf (ambient : EnvMap) (l : ServiceLaunch) : EnvMap :=
  backendLaunchEnv ambient l.readAtLaunch

/-! Section: The supervision loop (main, lines 410-423) -/

/-- The fixed service registry of main (names; the ports play no role in
the supervised loop). -/
def serviceNames : List String := ["auth", "project", "collab", "file", "ai"]

/-- The name reported for an exited process found at index i of the
current list: services[i][0] when i is within the registry, otherwise
"frontend". -/
def reportName (i : Nat) : String :=
  serviceNames.getD i "frontend"

/-- The outcome of one tick of the supervision loop. -/
structure TickResult : Type where
  survivors : List Nat
  removed : List Nat
  reported : List String
deriving DecidableEq

/-- One pass of the for loop over enumerate(processes) with in-place
list.remove of exited entries. The loop variable j is both the enumerate
counter and the position probed in the current (possibly shrunk) list;
after a removal the element that slides into position j is never probed,
because j still advances. Fuel bounds the iteration count; the initial
list length is always enough fuel, since every iteration advances j and
the length never grows. -/
def tickAux (exited : Nat → Bool) : Nat → Nat → List Nat → TickResult
  | 0, _, procs => ⟨procs, [], []⟩
  | Nat.succ fuel, j, procs =>
    if h : j < procs.length then
      if exited (procs.get ⟨j, h⟩) then
        ⟨(tickAux exited fuel (j + 1) (procs.erase (procs.get ⟨j, h⟩))).survivors,
         procs.get ⟨j, h⟩ ::
           (tickAux exited fuel (j + 1) (procs.erase (procs.get ⟨j, h⟩))).removed,
         reportName j ::
           (tickAux exited fuel (j + 1) (procs.erase (procs.get ⟨j, h⟩))).reported⟩
      else tickAux exited fuel (j + 1) procs
    else ⟨procs, [], []⟩

/-- One complete tick of the supervision loop over the tracked list:
poll results for this tick are given by the exited predicate. -/
def supervisorTick (exited : Nat → Bool) (procs : List Nat) : TickResult :=
  tickAux exited procs.length 0 procs

/-! Section: Shutdown (signal_handler, lines 385-404) -/

/-- The external facts the shutdown path consults: which terminate calls
raise, whether docker-compose up was run successfully by this run
(docker_process is not None), and whether the docker executables are
found on PATH when the handler runs. -/
structure ShutdownWorld : Type where
  terminateFails : Nat → Bool
  dockerStartedByRun : Bool
  dockerAvailableNow : Bool

/-- One process.terminate() call, which may raise. -/
def terminateOne (fails : Nat → Bool) (p : Nat) : Except String Unit :=
  if fails p then Except.error "terminate raised" else Except.ok ()

/-- The for loop of the handler: every tracked process gets a terminate
attempt; the per-process except swallows a failure and the loop continues
to the next process either way. Records (pid, attempt succeeded). -/
def stopProcesses (fails : Nat → Bool) : List Nat → List (Nat × Bool)
  | [] => []
  | p :: ps =>
    match terminateOne fails p with
    | Except.ok _ => (p, true) :: stopProcesses fails ps
    | Except.error _ => (p, false) :: stopProcesses fails ps

/-- The observable effects of one full run of the handler. -/
structure ShutdownEffects : Type where
  termAttempts : List (Nat × Bool)
  teardownRequested : Bool
  exitCode : Nat
deriving DecidableEq

/-- signal_handler: terminate every tracked process (errors swallowed per
process), then request docker-compose down exactly when docker_process is
set and check_docker() still succeeds, then sys.exit(0). There is no
shutdown-in-progress flag anywhere in the handler. -/
def signal_handler (w : ShutdownWorld) (procs : List Nat) : ShutdownEffects :=
  { termAttempts := stopProcesses w.terminateFails procs
    teardownRequested := w.dockerStartedByRun && w.dockerAvailableNow
    exitCode := 0 }

/-- The termination requests issued when a second signal re-enters the
handler while the first pass has finished its terminate loop but not yet
exited (for example during the docker-compose down call): two full passes
over the same tracked list. -/
def doubleSignalRequests (w : ShutdownWorld) (procs : List Nat) : List Nat :=
  (signal_handler w procs).termAttempts.map Prod.fst
    ++ (signal_handler w procs).termAttempts.map Prod.fst

/-! Section: Whole-run model (main, lines 244-425) -/

/-- The result of the bounded supervision loop: the loop broke because the
tracked list became empty (main then returns and the program exits 0), or
the fuel ran out with processes still tracked. -/
inductive LoopResult : Type
  | allStopped : LoopResult
  | fuelExhausted : List Nat → LoopResult
deriving DecidableEq

/-- The while loop of main: each iteration runs one tick over the current
list, breaks when the list is empty, else sleeps and repeats. The exit
schedule gives the poll results per tick and pid. -/
def runLoop (sched : Nat → Nat → Bool) : Nat → Nat → List Nat → LoopResult
  | 0, _, procs => LoopResult.fuelExhausted procs
  | Nat.succ fuel, t, procs =>
    if (supervisorTick (sched t) procs).survivors.isEmpty then
      LoopResult.allStopped
    else runLoop sched fuel (t + 1) (supervisorTick (sched t) procs).survivors

/-- The launch phase of main over the service registry: pid i is the
handle of the i-th service; each handle is appended exactly when its
launch returned one. -/
def launchBackends : Nat → List LaunchWorld → List Nat → List Nat
  | _, [], acc => acc
  | i, w :: ws, acc => launchBackends (i + 1) ws (trackIfStarted acc (graceProbe w i))

/-- The full launch phase: the backends in registry order, then the
frontend (whose pid continues the numbering). -/
def launchPhase (svcWorlds : List LaunchWorld) (fw : LaunchWorld) : List Nat :=
  trackIfStarted (launchBackends 0 svcWorlds []) (graceProbe fw svcWorlds.length)

/-- The external facts of a whole run of main. -/
structure RunConfig : Type where
  nodePresent : Bool
  npmPresent : Bool
  backendDirExists : Bool
  frontendDirExists : Bool
  svcWorlds : List LaunchWorld
  frontendWorld : LaunchWorld
  sched : Nat → Nat → Bool
  fuel : Nat

/-- The observable outcome of a run of main. -/
structure MainResult : Type where
  exitCode : Option Nat
  spawned : List Nat
deriving DecidableEq

/-- main: the prerequisite check (node, npm) and the two directory checks
each sys.exit(1) before anything is launched; otherwise the services and
the frontend are launched and the supervision loop runs, and main returns
normally (process exit status 0) when the loop breaks on an empty list. -/
def mainModel (cfg : RunConfig) : MainResult :=
  if cfg.nodePresent && cfg.npmPresent then
    if cfg.backendDirExists then
      if cfg.frontendDirExists then
        match runLoop cfg.sched cfg.fuel 0 (launchPhase cfg.svcWorlds cfg.frontendWorld) with
        | LoopResult.allStopped =>
          ⟨some 0, launchPhase cfg.svcWorlds cfg.frontendWorld⟩
        | LoopResult.fuelExhausted _ =>
          ⟨none, launchPhase cfg.svcWorlds cfg.frontendWorld⟩
      else ⟨some 1, []⟩
    else ⟨some 1, []⟩
  else ⟨some 1, []⟩

/-! Section: Concrete inputs used by counterexamples and witnesses -/

/-- A tick at which every process has exited. -/
def allExitedFn : Nat → Bool := fun _ => true

/-- A tick at which no process has exited. -/
def noneExitedFn : Nat → Bool := fun _ => false

/-- A tick at which exactly the process with pid k has exited. -/
def exitedOnly (k : Nat) : Nat → Bool := fun p => p == k

/-- A shutdown world with no terminate failures and no docker. -/
def wNoFail : ShutdownWorld :=
  ⟨fun _ => false, false, false⟩

/-- A shutdown world where docker was started by this run but the docker
executables are no longer found on PATH when the handler runs. -/
def w3cex : ShutdownWorld :=
  ⟨fun _ => false, true, false⟩

/-- A read that yielded one assignment line and then failed. -/
def failedRead : ReadResult := ReadResult.readLines ["A=1"] true

/-- A configuration read: one plain assignment. -/
def fileA : ReadResult := ReadResult.readLines ["K=1"] false

/-- A configuration read with the same assignment plus a comment line:
different raw contents, same parsed overlay. -/
def fileB : ReadResult := ReadResult.readLines ["# note", "K=1"] false

/-- A run whose prerequisite check fails (node missing). -/
def cfgFatal : RunConfig :=
  ⟨false, true, true, true, [], ⟨false, none⟩, fun _ _ => true, 3⟩

/-- The line KEY="value" (double-quoted value). -/
def dquoteLine : String :=
  "KEY=" ++ String.mk [dquoteCh] ++ "value" ++ String.mk [dquoteCh]

/-- The line KEY-single-quoted-value. -/
def squoteLine : String :=
  "KEY=" ++ String.mk [squoteCh] ++ "value" ++ String.mk [squoteCh]

/-! Section: Helper lemmas about the supervision tick -/

theorem tickAux_removed_exited (exited : Nat → Bool) :
    ∀ (fuel j : Nat) (procs : List Nat),
      ∀ p ∈ (tickAux exited fuel j procs).removed, exited p = true := by
  intro fuel
  induction fuel with
  | zero =>
    intro j procs p hp
    simp [tickAux] at hp
  | succ f ih =>
    intro j procs p hp
    rw [tickAux] at hp
    by_cases h : j < procs.length
    · rw [dif_pos h] at hp
      by_cases he : exited (procs.get ⟨j, h⟩) = true
      · rw [if_pos he] at hp
        rcases List.mem_cons.mp hp with hq | hq
        · rw [hq]; exact he
        · exact ih (j + 1) (procs.erase (procs.get ⟨j, h⟩)) p hq
      · rw [if_neg he] at hp
        exact ih (j + 1) procs p hp
    · rw [dif_neg h] at hp
      simp at hp

theorem tickAux_perm (exited : Nat → Bool) :
    ∀ (fuel j : Nat) (procs : List Nat),
      procs.Perm ((tickAux exited fuel j procs).survivors
        ++ (tickAux exited fuel j procs).removed) := by
  intro fuel
  induction fuel with
  | zero =>
    intro j procs
    simp [tickAux]
  | succ f ih =>
    intro j procs
    rw [tickAux]
    by_cases h : j < procs.length
    · rw [dif_pos h]
      by_cases he : exited (procs.get ⟨j, h⟩) = true
      · rw [if_pos he]
        have hmem : procs.get ⟨j, h⟩ ∈ procs := procs.get_mem j h
        have h1 : procs.Perm (procs.get ⟨j, h⟩ :: procs.erase (procs.get ⟨j, h⟩)) :=
          List.perm_cons_erase hmem
        have h2 := ih (j + 1) (procs.erase (procs.get ⟨j, h⟩))
        refine h1.trans ?_
        refine (h2.cons (procs.get ⟨j, h⟩)).trans ?_
        exact List.perm_middle.symm
      · rw [if_neg he]
        exact ih (j + 1) procs
    · rw [dif_neg h]
      simp

theorem tickAux_none_exited (exited : Nat → Bool) :
    ∀ (fuel j : Nat) (procs : List Nat),
      (∀ p ∈ procs, exited p = false) →
      tickAux exited fuel j procs = ⟨procs, [], []⟩ := by
  intro fuel
  induction fuel with
  | zero =>
    intro j procs _
    rfl
  | succ f ih =>
    intro j procs hall
    rw [tickAux]
    by_cases h : j < procs.length
    · rw [dif_pos h]
      have he : exited (procs.get ⟨j, h⟩) = false := hall _ (procs.get_mem j h)
      rw [if_neg (by rw [he]; exact Bool.false_ne_true)]
      exact ih (j + 1) procs hall
    · rw [dif_neg h]

/-! Section: C1: the tick invariant of the supervision loop -/

/-- C1 counterexample: with two tracked processes that have both exited at
the poll of a tick, the tick removes only the first one. Because
list.remove shifts the list while enumerate advances its index, the second
handle is never polled at that tick and survives it, so after the tick the
tracked list contains a handle whose process had exited, contradicting the
claim that after each tick the list contains only handles confirmed still
running at that tick. -/
theorem supervisorTick_retains_exited_handle :
    (supervisorTick allExitedFn [0, 1]).survivors = [1]
    ∧ allExitedFn 1 = true := by decide

/-- C1 (amended): after each tick, every handle removed by the tick was
observed exited at that tick, the survivors together with the removed
handles are a permutation of the pre-tick list, and a tick at which no
tracked process has exited leaves the list unchanged; but a handle that
slides into a removed slot is skipped without being polled, so the
post-tick list may still contain handles of already-exited processes. -/
theorem supervisorTick_removed_only_exited (exited : Nat → Bool) (procs : List Nat) :
    (∀ p ∈ (supervisorTick exited procs).removed, exited p = true)
    ∧ procs.Perm ((supervisorTick exited procs).survivors
        ++ (supervisorTick exited procs).removed)
    ∧ ((∀ p ∈ procs, exited p = false) →
        (supervisorTick exited procs).survivors = procs) := by
  refine ⟨tickAux_removed_exited exited procs.length 0 procs,
          tickAux_perm exited procs.length 0 procs, ?_⟩
  intro hall
  rw [supervisorTick, tickAux_none_exited exited procs.length 0 procs hall]

/-- Witness for the amended C1 theorem at a concrete tick with no exited
process. -/
theorem supervisorTick_removed_only_exited_witness :
    (supervisorTick noneExitedFn [3, 4]).survivors = [3, 4] :=
  (supervisorTick_removed_only_exited noneExitedFn [3, 4]).2.2 (by decide)

/-! Section: C9: exit reports are named by current position, not by handle -/

/-- C9: the reported name of an exited process is computed from its index
in the current tracked list applied to the fixed registry (an index beyond
the registry maps to the frontend name). Concretely: with the full list of
six handles, the tick at which only handle 0 exits removes it and reports
it as auth; at the next tick the list starts at handle 1, so when handle 1
(launched as the project service, registry entry 1) exits, it sits at
index 0 and is reported as auth, a name different from the one it was
launched under. -/
theorem exit_report_uses_positional_index :
    reportName 0 = "auth"
    ∧ reportName 1 = "project"
    ∧ reportName 5 = "frontend"
    ∧ reportName 9 = "frontend"
    ∧ (supervisorTick (exitedOnly 0) [0, 1, 2, 3, 4, 5]).survivors = [1, 2, 3, 4, 5]
    ∧ (supervisorTick (exitedOnly 0) [0, 1, 2, 3, 4, 5]).reported = ["auth"]
    ∧ (supervisorTick (exitedOnly 1) [1, 2, 3, 4, 5]).removed = [1]
    ∧ (supervisorTick (exitedOnly 1) [1, 2, 3, 4, 5]).reported = ["auth"] := by decide

/-! Section: Shutdown lemmas -/

theorem stopProcesses_eq_map (fails : Nat → Bool) (procs : List Nat) :
    stopProcesses fails procs = procs.map (fun q => (q, !(fails q))) := by
  induction procs with
  | nil => rfl
  | cons p ps ih =>
    by_cases hf : fails p = true
    · simp [stopProcesses, terminateOne, hf, ih]
    · simp [stopProcesses, terminateOne, hf, ih]

/-! Section: C2: shutdown under repeated signal delivery -/

/-- C2 counterexample: the handler has no shutdown-in-progress flag, so a
second signal delivered while the first handler pass is still shutting
down (for example during the docker-compose teardown call) runs a second
full pass; with a single tracked process, the process receives two
termination requests across the two passes, not one. -/
theorem signal_handler_second_signal_not_ignored :
    (doubleSignalRequests wNoFail [7]).count 7 = 2
    ∧ (doubleSignalRequests wNoFail [7]).count 7 ≠ 1 := by decide

/-- C2 (amended): the signal handler contains no shutdown-in-progress
flag; every full pass of the handler issues exactly one termination
request per occurrence of a process in the tracked list, so two passes in
rapid succession issue exactly two requests per tracked process. -/
theorem signal_handler_two_invocations (w : ShutdownWorld) (procs : List Nat) (p : Nat) :
    (signal_handler w procs).termAttempts.map Prod.fst = procs
    ∧ (doubleSignalRequests w procs).count p = 2 * procs.count p := by
  have hmap : (signal_handler w procs).termAttempts.map Prod.fst = procs := by
    rw [signal_handler]
    rw [stopProcesses_eq_map]
    rw [List.map_map]
    exact List.map_id procs
  refine ⟨hmap, ?_⟩
  rw [doubleSignalRequests, List.count_append, hmap]
  omega

/-! Section: C3: effects of the first shutdown signal -/

/-- C3 counterexample: the docker teardown is guarded by a fresh
check_docker() lookup at shutdown time, so in a run where docker-compose
up succeeded (the backend was started by this run) but the docker
executables are no longer found on PATH when the signal arrives, the
teardown is not requested even though the backend was started by this
run, refuting the stated if-and-only-if; the termination requests and the
exit status still behave as claimed. -/
theorem docker_teardown_skipped_when_engine_missing :
    w3cex.dockerStartedByRun = true
    ∧ (signal_handler w3cex [7, 8]).teardownRequested = false
    ∧ (signal_handler w3cex [7, 8]).termAttempts.map Prod.fst = [7, 8]
    ∧ (signal_handler w3cex [7, 8]).exitCode = 0 := by decide

/-- C3 (amended): on the first signal, a termination request is issued to
every handle in the tracked list in order, regardless of which terminate
calls raise (each failure is swallowed per process, recorded here as a
false success flag, and the loop continues); then the container teardown
is requested if and only if the container backend was started by this run
and the container engine is still detected on PATH at shutdown time; and
the handler exits with status 0. -/
theorem signal_handler_effects_spec (w : ShutdownWorld) (procs : List Nat) :
    (signal_handler w procs).termAttempts
        = procs.map (fun q => (q, !(w.terminateFails q)))
    ∧ (signal_handler w procs).teardownRequested
        = (w.dockerStartedByRun && w.dockerAvailableNow)
    ∧ (signal_handler w procs).exitCode = 0 :=
  ⟨stopProcesses_eq_map w.terminateFails procs, rfl, rfl⟩

/-! Section: C4: the launch grace probe and the tracking rule -/

/-- C4: for a launch whose Popen call did not raise, if the process has
already exited at the post-grace probe (poll returned an exit status) the
launch returns none and the tracked list is left unchanged by the append
step of main; if the process is still running at the probe (poll returned
none) the launch returns the handle and the append step adds exactly that
handle at the end of the tracked list. -/
theorem launch_grace_contract (serviceName : String) (authScriptExists : Bool)
    (overlay : EnvMap) (w : LaunchWorld) (pid : Nat) (tracked : List Nat)
    (hs : w.spawnRaises = false) :
    (∀ c : Int, w.pollAtGrace = some c →
      (start_backend_service serviceName authScriptExists overlay w pid).2 = none
      ∧ trackIfStarted tracked
          (start_backend_service serviceName authScriptExists overlay w pid).2
        = tracked)
    ∧ (w.pollAtGrace = none →
      (start_backend_service serviceName authScriptExists overlay w pid).2 = some pid
      ∧ trackIfStarted tracked
          (start_backend_service serviceName authScriptExists overlay w pid).2
        = tracked ++ [pid]) := by
  constructor
  · intro c hc
    simp [start_backend_service, graceProbe, hs, hc, trackIfStarted]
  · intro hn
    simp [start_backend_service, graceProbe, hs, hn, trackIfStarted]

/-- Witness for C4 at concrete inputs: a service that exited with status 1
during the grace window is not tracked, and one still running is appended. -/
theorem launch_grace_contract_witness :
    ((start_backend_service "ai" false emptyEnv ⟨false, some 1⟩ 9).2 = none
      ∧ trackIfStarted [4] (start_backend_service "ai" false emptyEnv ⟨false, some 1⟩ 9).2 = [4])
    ∧ ((start_backend_service "ai" false emptyEnv ⟨false, none⟩ 9).2 = some 9
      ∧ trackIfStarted [4] (start_backend_service "ai" false emptyEnv ⟨false, none⟩ 9).2 = [4, 9]) :=
  ⟨(launch_grace_contract "ai" false emptyEnv ⟨false, some 1⟩ 9 [4] rfl).1 1 rfl,
   (launch_grace_contract "ai" false emptyEnv ⟨false, none⟩ 9 [4] rfl).2 rfl⟩

/-! Section: C8: the frontend launch versus the backend launch contract -/

/-- C8 counterexample: the frontend Popen call sends its combined output
to an in-process pipe, not to a log file, and passes no environment
argument at all, so the frontend is launched neither with a per-service
log sink nor with the environment overlay the claim requires. -/
theorem frontend_spawn_no_log_no_overlay :
    frontendSpawnCall.dest = OutDest.pipe
    ∧ frontendSpawnCall.envPassed = none
    ∧ OutDest.pipe ≠ OutDest.logFile (backendLogName "frontend") :=
  ⟨rfl, rfl, by decide⟩

/-- C8 (amended): the frontend launch follows the same grace-probe rule as
backend services (after the grace interval it returns a handle exactly
when the process is still running), but unlike every backend launch,
which redirects combined output to the log file named from the service
name and passes the loaded overlay as the child environment, the frontend
is spawned with its combined output on an in-process pipe and with no
environment argument (it inherits the supervisor environment). -/
theorem frontend_launch_contract_actual (w : LaunchWorld) (pid : Nat)
    (serviceName : String) (authScriptExists : Bool) (overlay : EnvMap) :
    (start_frontend w pid).2 = graceProbe w pid
    ∧ (start_frontend w pid).2
        = (start_backend_service serviceName authScriptExists overlay w pid).2
    ∧ (start_frontend w pid).1.dest = OutDest.pipe
    ∧ (start_frontend w pid).1.envPassed = none
    ∧ (start_backend_service serviceName authScriptExists overlay w pid).1.dest
        = OutDest.logFile (backendLogName serviceName)
    ∧ (start_backend_service serviceName authScriptExists overlay w pid).1.envPassed
        = some overlay := by
  refine ⟨rfl, rfl, rfl, rfl, ?_, ?_⟩
  · rw [start_backend_service, backendSpawnCall]
    split
    · rfl
    · rfl
  · rw [start_backend_service, backendSpawnCall]
    split
    · rfl
    · rfl

/-! Section: C10: the overlay is rebuilt at every backend launch -/

/-- C10 counterexample: two launches whose configuration files differ (the
second has an extra comment line) still pass identical environments to
their children, so differing raw contents do not imply differing
environments. -/
theorem overlay_same_despite_content_diff :
    fileA ≠ fileB
    ∧ backendLaunchEnv emptyEnv fileA = backendLaunchEnv emptyEnv fileB :=
  ⟨by decide, rfl⟩

/-- C10 (amended): each backend launch rebuilds its own overlay by reading
the configuration file at that launch (the environment passed is a
function of nothing but the ambient environment and that read), so two
services in the same run receive different environments exactly when the
overlays parsed from their respective launch-time reads differ; in
particular differing environments force differing launch-time reads,
while differing raw contents alone need not change the environment. -/
theorem per_launch_env_recompute (ambient : EnvMap) (l1 l2 : ServiceLaunch)
    (k : String) :
    launchEnvOf ambient l1 = backendLaunchEnv ambient l1.readAtLaunch
    ∧ (launchEnvOf ambient l1 k ≠ launchEnvOf ambient l2 k →
        l1.readAtLaunch ≠ l2.readAtLaunch) := by
  refine ⟨rfl, ?_⟩
  intro hne heq
  exact hne (by rw [launchEnvOf, launchEnvOf, backendLaunchEnv, backendLaunchEnv, heq])

/-- Witness for the amended C10 theorem: two launches reading K=1 and K=2
pass environments differing at K, hence their reads differ. -/
theorem per_launch_env_recompute_witness :
    (ServiceLaunch.mk (ReadResult.readLines ["K=1"] false) ⟨false, none⟩).readAtLaunch
      ≠ (ServiceLaunch.mk (ReadResult.readLines ["K=2"] false) ⟨false, none⟩).readAtLaunch :=
  (per_launch_env_recompute emptyEnv
      (ServiceLaunch.mk (ReadResult.readLines ["K=1"] false) ⟨false, none⟩)
      (ServiceLaunch.mk (ReadResult.readLines ["K=2"] false) ⟨false, none⟩) "K").2
    (by decide)

/-! Section: Parsing lemmas for load_env_file -/

theorem parseLines_lastAssign (lines : List String) : ∀ (env : EnvMap) (k : String),
    parseLines env lines k
      = match specLastAssignment k lines with
        | some v => some v
        | none => env k := by
  induction lines with
  | nil => intro env k; rfl
  | cons l ls ih =>
    intro env k
    show parseLines (processLine env l) ls k = _
    rw [ih]
    cases hsa : specLastAssignment k ls with
    | some v => simp [specLastAssignment, hsa]
    | none =>
      simp only [specLastAssignment, hsa]
      cases hla : lineAssign l with
      | none => simp [processLine, hla]
      | some kv =>
        simp only [processLine, hla, envInsert]
        by_cases hk : kv.1 = k
        · subst hk
          simp
        · rw [if_neg (fun hh => hk hh.symm), if_neg hk]

/-! Section: C5: the configuration parsing rules -/

/-- C5: a line that is blank after stripping is ignored; a stripped line
beginning with the comment marker is ignored; looking up any key after
processing a list of lines yields the value assigned by the last line
that assigns that key (later duplicates override earlier ones), falling
back to the ambient environment when no line assigns it, where the
assignment of a line is obtained by splitting the stripped line at the
first separator, stripping whitespace from the key and surrounding double
or single quotes from the value; and concretely the double-quoted and the
single-quoted form of KEY=value both parse to the unquoted value. -/
theorem load_env_parsing_rules (env : EnvMap) (raw : String) (lines : List String)
    (k : String) :
    ((pyStripWs raw).data = [] → processLine env raw = env)
    ∧ (isComment (pyStripWs raw).data = true → processLine env raw = env)
    ∧ (parseLines env lines k
        = match specLastAssignment k lines with
          | some v => some v
          | none => env k)
    ∧ parseLines emptyEnv [dquoteLine] "KEY" = some "value"
    ∧ parseLines emptyEnv [squoteLine] "KEY" = some "value" := by
  refine ⟨?_, ?_, parseLines_lastAssign lines env k, by decide, by decide⟩
  · intro h
    simp [processLine, lineAssign, h]
  · intro h
    cases hd : (pyStripWs raw).data with
    | nil =>
      rw [hd] at h
      simp [isComment] at h
    | cons c cs =>
      rw [hd] at h
      simp [processLine, lineAssign, hd, h]

/-- Witness for C5 at concrete inputs: a whitespace-only line and a
comment line leave the environment unchanged. -/
theorem load_env_parsing_rules_witness :
    processLine emptyEnv "  " = emptyEnv ∧ processLine emptyEnv "# c" = emptyEnv :=
  ⟨(load_env_parsing_rules emptyEnv "  " [] "K").1 (by decide),
   (load_env_parsing_rules emptyEnv "# c" [] "K").2.1 (by decide)⟩

/-! Section: C6: overlay loading on a failed read is not atomic -/

/-- C6 counterexample: a read that yields the line A=1 and then fails
returns a mapping in which A is bound to 1, although the ambient
environment does not bind A at all: the entry parsed before the failure
stays in the returned mapping, so the ambient environment is not returned
unmodified. -/
theorem load_env_partial_entries_kept :
    (load_env_file emptyEnv failedRead).1 "A" = some "1"
    ∧ emptyEnv "A" = none
    ∧ (load_env_file emptyEnv failedRead).2 = true := by decide

/-- C6 (amended): when reading the configuration file fails partway, the
returned mapping is the ambient environment plus every entry parsed
before the failure (lookup of any key follows the last assignment among
the yielded lines, falling back to the ambient environment), and a
warning is surfaced; only a failure of the open call itself, or a missing
file, returns the ambient environment unmodified; in every case a mapping
is returned and the run continues, never aborting. -/
theorem load_env_failure_keeps_prefix (ambient : EnvMap) (ls : List String)
    (k : String) :
    ((load_env_file ambient (ReadResult.readLines ls true)).1 k
        = match specLastAssignment k ls with
          | some v => some v
          | none => ambient k)
    ∧ (load_env_file ambient (ReadResult.readLines ls true)).2 = true
    ∧ load_env_file ambient ReadResult.failAtOpen = (ambient, true)
    ∧ load_env_file ambient ReadResult.noFile = (ambient, false) :=
  ⟨parseLines_lastAssign ls ambient k, rfl, rfl, rfl⟩

/-! Section: C7: the exit-code contract of main -/

/-- A run with every precondition satisfied, two backend services that
both start and then exit naturally, and a frontend that starts and exits
naturally. -/
def cfgGood : RunConfig :=
  ⟨true, true, true, true, [⟨false, none⟩, ⟨false, none⟩], ⟨false, none⟩,
   fun _ _ => true, 5⟩

/-- C7: when the prerequisite check fails (node or npm missing) or an
expected project directory (backend or frontend) is absent, main exits
with status 1 having spawned nothing; when the preconditions hold and the
supervision loop ends with the tracked list empty, main finishes with
status 0; and the signal-triggered shutdown path also exits with
status 0. -/
theorem exit_code_contract (cfg : RunConfig) (w : ShutdownWorld) (procs : List Nat) :
    ((cfg.nodePresent && cfg.npmPresent) = false ∨ cfg.backendDirExists = false
        ∨ cfg.frontendDirExists = false →
      mainModel cfg = ⟨some 1, []⟩)
    ∧ ((cfg.nodePresent && cfg.npmPresent) = true → cfg.backendDirExists = true →
        cfg.frontendDirExists = true →
        runLoop cfg.sched cfg.fuel 0 (launchPhase cfg.svcWorlds cfg.frontendWorld)
          = LoopResult.allStopped →
        mainModel cfg = ⟨some 0, launchPhase cfg.svcWorlds cfg.frontendWorld⟩)
    ∧ (signal_handler w procs).exitCode = 0 := by
  refine ⟨?_, ?_, rfl⟩
  · intro h
    rcases h with h | h | h
    · simp [mainModel, h]
    · simp [mainModel, h]
    · simp [mainModel, h]
  · intro h1 h2 h3 hloop
    simp [mainModel, h1, h2, h3, hloop]

/-- Witness for C7: a run with node missing exits 1 with nothing spawned,
and a run where everything starts and later exits naturally finishes with
status 0. -/
theorem exit_code_contract_witness :
    mainModel cfgFatal = ⟨some 1, []⟩
    ∧ mainModel cfgGood = ⟨some 0, launchPhase cfgGood.svcWorlds cfgGood.frontendWorld⟩ :=
  ⟨(exit_code_contract cfgFatal wNoFail []).1 (Or.inl (by decide)),
   (exit_code_contract cfgGood wNoFail []).2.1 (by decide) (by decide) (by decide)
     (by decide)⟩
